import Mathlib

/-!
Verification development for the python-qr repository (src/qrscanner.py and
src/qrmaker.py). The Python code is shallowly embedded: the camera read loop
becomes a function over the list of read results, the straight-line Windows
clipboard bracket becomes a primitive-call program run under exception
semantics, and the temporary-file based export path becomes explicit
state/trace passing. Python exceptions (including AttributeError raised when a
called method name resolves nowhere in a class hierarchy) are modelled as
abortive outcomes.
-/

namespace PyQR

/-! ### Embedding of src/qrscanner.py -/

/-- Observable events of a scanner run: the camera operations of
ZbarWebcam.capture_data (lines 76-90: the VideoCapture construction and each
stream.read call; a release/close of the stream, which the source never
performs, would be closeCam), and the failed attribute lookup Python performs
when a method name is defined nowhere in the class hierarchy. -/
inductive Event where
  | openCam
  | readFrame
  | closeCam
  | attrLookupFail (name : String)
  deriving DecidableEq

/-- Outcome of the capture loop of ZbarWebcam.capture_data over a finite list
of modelled camera reads. ranOut means the modelled reads were exhausted with
the loop still running (in the source the loop would simply keep reading). -/
inductive CaptureOutcome where
  | captured (data : String)
  | decodeRaised
  | ranOut
  deriving DecidableEq

/-- Loop of ZbarWebcam.capture_data, lines 83-90. Each iteration runs
`_, frame = stream.read()` and `obj = [o.data.decode("utf-8") for o in
pyzbar.decode(frame)]`; the read-success flag is discarded. A read result is
modelled as `Option F`: `some f` is a delivered frame, `none` is a failed read
(cv2 returns (False, None)). On `none` the source still calls
pyzbar.decode(None); None is outside the decoder's frame contract and pyzbar
raises (it unpacks its argument as pixel data), modelled as decodeRaised. On a
frame, if the decode list is empty the loop continues; otherwise it stops and
`self.data = obj[0]` takes the first element. -/
def capture_loop {F : Type} (decode : F → List String) :
    List (Option F) → List Event × CaptureOutcome
  | [] => ([], CaptureOutcome.ranOut)
  | none :: _ => ([Event.readFrame], CaptureOutcome.decodeRaised)
  | some f :: rest =>
    if (decode f).length = 0 then
      (Event.readFrame :: (capture_loop decode rest).1, (capture_loop decode rest).2)
    else
      ([Event.readFrame], CaptureOutcome.captured (decode f).headI)

/-- ZbarWebcam.capture_data, lines 76-90: `stream = VideoCapture(...)` opens
the camera, then the loop runs. The source contains no `stream.release()` on
any path, so no closeCam event is ever emitted. -/
def capture_data {F : Type} (decode : F → List String) (reads : List (Option F)) :
    List Event × CaptureOutcome :=
  match capture_loop decode reads with
  | (t, o) => (Event.openCam :: t, o)

/-- Outcome of the whole WindowsQrScanner.__init__ run. -/
inductive RunOutcome where
  | finished
  | attrError
  | decodeRaised
  | ranOut
  deriving DecidableEq

/-- WindowsQrScanner.__init__, lines 108-121: runs capture_data, then
`if self.data: self.set_data_to_clipboard(self.data)`. A Python string is
truthy exactly when non-empty, so the guarded call happens iff the captured
data is not "". The hierarchy of WindowsQrScanner (ZbarWebcam, WebcamCapture,
WindowsClipboard) defines set_clipboard but no method named
set_data_to_clipboard, so reaching the guarded call raises AttributeError
before any clipboard operation can occur. -/
def windowsQrScanner_init {F : Type} (decode : F → List String)
    (reads : List (Option F)) : List Event × RunOutcome :=
  match capture_data decode reads with
  | (t, CaptureOutcome.captured d) =>
    if d = "" then (t, RunOutcome.finished)
    else (t ++ [Event.attrLookupFail "set_data_to_clipboard"], RunOutcome.attrError)
  | (t, CaptureOutcome.decodeRaised) => (t, RunOutcome.decodeRaised)
  | (t, CaptureOutcome.ranOut) => (t, RunOutcome.ranOut)

/-! ### Clipboard bracket programs (qrscanner.py lines 97-102, qrmaker.py lines 56-62) -/

/-- Primitive calls appearing in the two clipboard brackets: the win32clipboard
calls, plus yieldBody for the point of a contextmanager generator where control
is yielded to the caller's with-body. -/
inductive Prim where
  | openClip
  | emptyClip
  | setText (s : String)
  | getData
  | yieldBody
  | closeClip
  deriving DecidableEq

/-- Sequential exception semantics for a straight-line program of primitive
calls: primitives run in order; a primitive on which `fails` holds raises — it
appears in the trace as attempted, execution stops there, and the success flag
is false. No try/finally exists in either source bracket, so nothing runs
after a raising primitive. -/
def runProg (fails : Prim → Bool) : List Prim → List Prim × Bool
  | [] => ([], true)
  | p :: ps =>
    if fails p then ([p], false)
    else (p :: (runProg fails ps).1, (runProg fails ps).2)

/-- WindowsClipboard.set_clipboard, lines 97-102: the straight-line body
OpenClipboard(); EmptyClipboard(); SetClipboardText(data, CF_UNICODETEXT);
CloseClipboard(), with no try/finally. -/
def set_clipboard (data : String) : List Prim :=
  [Prim.openClip, Prim.emptyClip, Prim.setText data, Prim.closeClip]

/-- WindowsQRFile.clipboard, lines 56-62: the @contextmanager generator body
OpenClipboard(); yield GetClipboardData(); CloseClipboard(), as it would run if
it were entered with a with-statement: the caller's body executes at the yield
point; an exception in the body is thrown into the generator at the yield and,
with no try/finally around the yield, CloseClipboard is skipped. -/
def clipboard_cm : List Prim :=
  [Prim.openClip, Prim.getData, Prim.yieldBody, Prim.closeClip]

/-! ### Embedding of src/qrmaker.py -/

/-- Python values relevant to the generate path: a text string, or the
unentered _GeneratorContextManager object produced by calling a
@contextmanager-decorated method without a with-statement. -/
inductive PyVal where
  | str (s : String)
  | ctxManager
  deriving DecidableEq

/-- Observable events of the generate path: clipboard operations of the
clipboard generator (which never run, since the generator is never entered),
the encoder writing the staged image (QRFile.export line 30), opening the
viewer (QRFile.open_file line 38), the two finalize actions of
QRFile.cleanup_file_data line 43 (shutil.move / os.remove), and a failed
attribute lookup. -/
inductive MakerEv where
  | clipOpenEv
  | clipGetEv
  | clipCloseEv
  | encodeWrite (data : PyVal) (path : String)
  | viewerOpen (path : String)
  | moveFile (src dst : String)
  | removeFile (path : String)
  | attrLookupFail (name : String)
  deriving DecidableEq

/-- Outcome of a WindowsQRFile.make_qrcode_from_clipboard call. -/
inductive MakerOutcome where
  | attrError
  | viewerRaised
  deriving DecidableEq

/-- TemporaryFile().name: draws the next unused temporary filename from the
operating system, modelled as a counter-indexed name supply. -/
def tempfileName (s : Nat) : String × Nat :=
  ("tmp" ++ toString s, s + 1)

/-- QRFile.TMP, qrmaker.py line 22: `TMP = TemporaryFile().name` sits in the
class body, so it is evaluated exactly once, at module import; s0 is the
name-supply state when the module is imported. Every instance and every call
reads this one class attribute. -/
def QRFile_TMP (s0 : Nat) : String :=
  (tempfileName s0).1

/-- Staging path used by the n-th call of QRFile.export (lines 24-30): the
call writes to self.TMP, the shared class attribute; no fresh temporary name
is drawn per call, so the path does not depend on the call index. -/
def export_staging_path (s0 : Nat) (callIdx : Nat) : String :=
  QRFile_TMP s0

/-- Test for the finalize events of QRFile.cleanup_file_data (move / remove). -/
def isFinalize : MakerEv → Bool
  | MakerEv.moveFile _ _ => true
  | MakerEv.removeFile _ => true
  | _ => false

/-- Test for the clipboard operations of the clipboard generator. -/
def isClipOp : MakerEv → Bool
  | MakerEv.clipOpenEv => true
  | MakerEv.clipGetEv => true
  | MakerEv.clipCloseEv => true
  | _ => false

/-- WindowsQRFile.make_qrcode_from_clipboard, lines 50-54:
`self.export(self.clipboard()); self.open_file(); self.cleanup()`.
self.clipboard() calls the @contextmanager-decorated method without a
with-statement: it returns the unentered _GeneratorContextManager object and
the generator body never executes, so OpenClipboard/GetClipboardData/
CloseClipboard are never called and the object itself — not the clipboard
text — is the data handed to export. export writes to the shared staging path
self.TMP (whether the pyqrcode encoder accepts a non-string payload is
external; the event records the payload handed to it). open_file then runs; if
the viewer call raises, nothing catches it and the remaining line is skipped.
Otherwise `self.cleanup()` runs next: no method named cleanup exists (the
method is cleanup_file_data), so Python raises AttributeError and the finalize
step is never reached on this path either. clipText is the OS clipboard
content during the run; no event depends on it. -/
def make_qrcode_from_clipboard (s0 : Nat) (clipText : String)
    (viewerFails : Bool) : List MakerEv × MakerOutcome :=
  if viewerFails then
    ([MakerEv.encodeWrite PyVal.ctxManager (QRFile_TMP s0),
      MakerEv.viewerOpen (QRFile_TMP s0)],
     MakerOutcome.viewerRaised)
  else
    ([MakerEv.encodeWrite PyVal.ctxManager (QRFile_TMP s0),
      MakerEv.viewerOpen (QRFile_TMP s0),
      MakerEv.attrLookupFail "cleanup"],
     MakerOutcome.attrError)

/-- Errors a direct call of QRFile.cleanup_file_data can raise, together with
the DoubleFinalizeError the specification prescribes (which appears nowhere in
the source). -/
inductive PyErr where
  | fileNotFound
  | doubleFinalizeError
  deriving DecidableEq

/-- QRFile.cleanup_file_data, lines 40-43:
`move(self.TMP, save_to) if save_to else remove(self.TMP)`. The state is
whether the staged file at self.TMP currently exists; the result is the new
existence state. shutil.move and os.remove both raise the OS file-not-found
error when the source file is absent. The source keeps no per-handle
finalized flag of any kind. -/
def cleanup_file_data (save_to : Option String) (tmpExists : Bool) :
    Except PyErr Bool :=
  match save_to with
  | some _ => if tmpExists then Except.ok false else Except.error PyErr.fileNotFound
  | none => if tmpExists then Except.ok false else Except.error PyErr.fileNotFound

/-! ### Helper lemmas -/

/-- Helper: on a stream of delivered frames, the capture loop skips exactly
the leading frames whose decode list is empty and stops at the first frame
with a non-empty decode list, capturing its first element. -/
theorem capture_loop_spec {F : Type} (decode : F → List String)
    (p : List F) (f : F) (s : List F)
    (hp : ∀ g ∈ p, decode g = []) (hf : decode f ≠ []) :
    capture_loop decode ((p ++ f :: s).map some) =
      (List.replicate (p.length + 1) Event.readFrame,
       CaptureOutcome.captured (decode f).headI) := by
  induction p with
  | nil =>
    have h0 : ¬ (decode f).length = 0 := by
      simpa [List.length_eq_zero] using hf
    simp [capture_loop, h0]
  | cons g p ih =>
    have hg : decode g = [] := hp g (List.mem_cons_self g p)
    have hp' : ∀ x ∈ p, decode x = [] := fun x hx => hp x (List.mem_cons_of_mem g hx)
    have ih' := ih hp'
    simp only [List.map_append, List.map_cons] at ih'
    simp [capture_loop, hg, ih', List.replicate_succ]

/-- Helper: the capture loop emits only readFrame events; in particular it
never closes the camera. -/
theorem capture_loop_no_close {F : Type} (decode : F → List String)
    (reads : List (Option F)) :
    (capture_loop decode reads).1.count Event.closeCam = 0 := by
  induction reads with
  | nil => simp [capture_loop]
  | cons o rest ih =>
    cases o with
    | none => simp [capture_loop]
    | some f =>
      by_cases h : (decode f).length = 0 <;>
        simp [capture_loop, h, ih]

/-! ### Claims -/

/-- C2: for every sequence of frames in which some frame yields a non-empty
decode list, the scan loop terminates at the first such frame — it performs
exactly one read per preceding empty-decode frame plus the final one — and the
captured payload is the first element of that frame's decode list, even when
the list has more than one element. -/
theorem C2_first_nonempty_frame_wins {F : Type} (decode : F → List String)
    (p : List F) (f : F) (s : List F)
    (hp : ∀ g ∈ p, decode g = []) (hf : decode f ≠ []) :
    capture_data decode ((p ++ f :: s).map some) =
      (Event.openCam :: List.replicate (p.length + 1) Event.readFrame,
       CaptureOutcome.captured (decode f).headI) := by
  unfold capture_data
  rw [capture_loop_spec decode p f s hp hf]

/-- C2 witness: the spec's own example, decode lists [], [], then a two-element
list; the loop reads three frames and captures the first element. -/
theorem C2_witness :
    (∀ g ∈ ([0, 1] : List Nat), (if g = 2 then ["A", "B"] else ([] : List String)) = []) ∧
    (["A", "B"] : List String) ≠ [] ∧
    capture_data (fun n : Nat => if n = 2 then ["A", "B"] else [])
        (([0, 1] ++ 2 :: ([] : List Nat)).map some) =
      (Event.openCam :: List.replicate 3 Event.readFrame,
       CaptureOutcome.captured "A") := by
  refine ⟨by decide, by decide, ?_⟩
  exact C2_first_nonempty_frame_wins (fun n : Nat => if n = 2 then ["A", "B"] else [])
    [0, 1] 2 [] (by decide) (by decide)

/-- C10: for every scan run whose first decoded payload is the empty string,
the loop terminates (an empty string is still an element of a non-empty decode
list, so `while not len(obj)` exits), but `if self.data:` is falsy for "", so
the publish step is skipped: the run finishes with a trace of camera events
only — no clipboard operation and no attribute lookup is attempted. -/
theorem C10_empty_payload_skips_publish {F : Type} (decode : F → List String)
    (p : List F) (f : F) (s : List F)
    (hp : ∀ g ∈ p, decode g = []) (hf : decode f ≠ [])
    (hh : (decode f).headI = "") :
    windowsQrScanner_init decode ((p ++ f :: s).map some) =
      (Event.openCam :: List.replicate (p.length + 1) Event.readFrame,
       RunOutcome.finished) := by
  unfold windowsQrScanner_init capture_data
  rw [capture_loop_spec decode p f s hp hf, hh]
  simp

/-- C10 witness: a single frame decoding [""] terminates the loop and the run
finishes without attempting the clipboard publish. -/
theorem C10_witness :
    (∀ g ∈ ([] : List Nat), ([""] : List String) = []) ∧
    ([""] : List String) ≠ [] ∧
    ([""] : List String).headI = "" ∧
    windowsQrScanner_init (fun _ : Nat => [""])
        (([] ++ 0 :: ([] : List Nat)).map some) =
      (Event.openCam :: List.replicate 1 Event.readFrame, RunOutcome.finished) := by
  refine ⟨by simp, by decide, by decide, ?_⟩
  exact C10_empty_payload_skips_publish (fun _ : Nat => [""]) [] 0 []
    (by simp) (by decide) (by decide)

/-- C6: the claim says an unavailable frame leaves the loop awaiting and
retrying, never failing the scan. The code ignores the read-success flag and
passes the missing frame (None) straight to pyzbar.decode, which raises; with
the very first read unavailable the scan aborts, even when a perfectly
decodable frame would have followed. -/
theorem C6_unavailable_frame_aborts :
    capture_data (fun _ : Unit => ([] : List String)) [none] =
      ([Event.openCam, Event.readFrame], CaptureOutcome.decodeRaised) ∧
    capture_data (fun _ : Unit => ["A"]) [none, some ()] =
      ([Event.openCam, Event.readFrame], CaptureOutcome.decodeRaised) := by
  exact ⟨rfl, rfl⟩

/-- C4: at the spec's own end-to-end scenario (two symbol-free frames, then a
frame decoding "XYZ123"), the run reaches the publish step and aborts there
with AttributeError, because set_data_to_clipboard is defined nowhere in the
hierarchy; no clipboard write and no file write ever happens. -/
theorem C4_publish_raises_attributeError :
    windowsQrScanner_init (fun n : Nat => if n = 2 then ["XYZ123"] else [])
        [some 0, some 1, some 2] =
      ([Event.openCam, Event.readFrame, Event.readFrame, Event.readFrame,
        Event.attrLookupFail "set_data_to_clipboard"],
       RunOutcome.attrError) := by
  decide

/-- C3 counterexample: the claim says the camera source is closed exactly once
before the run ends; on a concrete successful-decode run the full trace
contains no closeCam at all (count 0, not 1) — the source never calls
stream.release(). -/
theorem C3_counterexample :
    windowsQrScanner_init (fun _ : Nat => ["XYZ123"]) [some 0] =
      ([Event.openCam, Event.readFrame,
        Event.attrLookupFail "set_data_to_clipboard"], RunOutcome.attrError) ∧
    (windowsQrScanner_init (fun _ : Nat => ["XYZ123"]) [some 0]).1.count
        Event.closeCam = 0 := by
  decide

/-- C3 amended: the camera stream opened at the start of the run is never
explicitly closed on any path — success, empty capture, or decode failure —
the close count is always zero, and the device handle is left to interpreter
cleanup / process exit. -/
theorem C3_amended_camera_never_closed {F : Type} (decode : F → List String)
    (reads : List (Option F)) :
    (windowsQrScanner_init decode reads).1.count Event.closeCam = 0 := by
  have h := capture_loop_no_close decode reads
  unfold windowsQrScanner_init capture_data
  rcases hr : capture_loop decode reads with ⟨t, o⟩
  rw [hr] at h
  cases o with
  | captured d =>
    by_cases hd : d = "" <;> simp [hd, h]
  | decodeRaised => simpa using h
  | ranOut => simpa using h

/-- C1 counterexample: the claim says the clipboard close call still runs when
the inner set/get call raises after a successful open. Injecting a failure at
SetClipboardText in set_clipboard, and at the with-body of the clipboard
context manager, the run aborts with CloseClipboard never executed (close
count 0) — neither bracket has a try/finally. -/
theorem C1_counterexample :
    (runProg (fun q => q == Prim.setText "x") (set_clipboard "x")).2 = false ∧
    (runProg (fun q => q == Prim.setText "x") (set_clipboard "x")).1.count
      Prim.closeClip = 0 ∧
    (runProg (fun q => q == Prim.yieldBody) clipboard_cm).2 = false ∧
    (runProg (fun q => q == Prim.yieldBody) clipboard_cm).1.count
      Prim.closeClip = 0 := by
  decide

/-- C1 amended: in both clipboard brackets the close call executes exactly when
every call before it succeeds; any failure of the open, empty, set, get or
with-body step after the bracket is entered skips CloseClipboard and the error
propagates with the clipboard left open. -/
theorem C1_amended_close_on_success_only (data : String) (fails : Prim → Bool) :
    ((runProg fails (set_clipboard data)).1.count Prim.closeClip =
      if fails Prim.openClip = false ∧ fails Prim.emptyClip = false ∧
          fails (Prim.setText data) = false then 1 else 0) ∧
    ((runProg fails clipboard_cm).1.count Prim.closeClip =
      if fails Prim.openClip = false ∧ fails Prim.getData = false ∧
          fails Prim.yieldBody = false then 1 else 0) := by
  cases h1 : fails Prim.openClip <;>
    cases h2 : fails Prim.emptyClip <;>
      cases h3 : fails (Prim.setText data) <;>
        cases h4 : fails Prim.getData <;>
          cases h5 : fails Prim.yieldBody <;>
            cases h6 : fails Prim.closeClip <;>
              simp [runProg, set_clipboard, clipboard_cm, h1, h2, h3, h4, h5, h6]

/-- C5: the claim says the finalize step (commit or discard of the staged
file) runs exactly once on every exit path, including viewer failure. On the
path where the viewer succeeds, the run aborts at self.cleanup() with
AttributeError (the method is named cleanup_file_data), and on the path where
the viewer raises, the cleanup line is never reached: on both paths the trace
contains zero finalize events, not one. -/
theorem C5_finalize_runs_zero_times :
    make_qrcode_from_clipboard 0 "hello-world" false =
      ([MakerEv.encodeWrite PyVal.ctxManager "tmp0", MakerEv.viewerOpen "tmp0",
        MakerEv.attrLookupFail "cleanup"], MakerOutcome.attrError) ∧
    (make_qrcode_from_clipboard 0 "hello-world" false).1.countP isFinalize = 0 ∧
    make_qrcode_from_clipboard 0 "hello-world" true =
      ([MakerEv.encodeWrite PyVal.ctxManager "tmp0", MakerEv.viewerOpen "tmp0"],
       MakerOutcome.viewerRaised) ∧
    (make_qrcode_from_clipboard 0 "hello-world" true).1.countP isFinalize = 0 := by
  decide

/-- C7: the claim says the payload encoded into the produced image equals the
text read from the OS clipboard. In the code, self.clipboard() is called
without a with-statement, so the generator never runs: whatever the clipboard
holds, the trace contains zero clipboard operations, and the payload handed to
the encoder is the unentered context-manager object, which is not the
clipboard string. -/
theorem C7_encoder_gets_ctxManager_not_clipboard (clipText : String)
    (viewerFails : Bool) :
    (make_qrcode_from_clipboard 0 clipText viewerFails).1.countP isClipOp = 0 ∧
    (make_qrcode_from_clipboard 0 clipText viewerFails).1.head? =
      some (MakerEv.encodeWrite PyVal.ctxManager (QRFile_TMP 0)) ∧
    PyVal.ctxManager ≠ PyVal.str clipText := by
  cases viewerFails <;> simp [make_qrcode_from_clipboard, isClipOp]

/-- C8 counterexample: the claim says each export operation gets a staging
location created fresh for it and never shared; in the code TMP is a class
attribute drawn once at import, so two distinct export calls (indices 0 and 1)
use the very same path, the class-level TMP. -/
theorem C8_counterexample :
    export_staging_path 0 0 = export_staging_path 0 1 ∧
    export_staging_path 0 0 = QRFile_TMP 0 := by
  exact ⟨rfl, rfl⟩

/-- C8 amended: all export operations of a process share the single staging
path drawn at module import (QRFile.TMP); every generate run stages its image
at that same shared path regardless of call, payload, or viewer behavior. -/
theorem C8_amended_single_shared_path (s0 i j : Nat) (a b : String)
    (va vb : Bool) :
    export_staging_path s0 i = export_staging_path s0 j ∧
    (make_qrcode_from_clipboard s0 a va).1.head? =
      some (MakerEv.encodeWrite PyVal.ctxManager (QRFile_TMP s0)) ∧
    (make_qrcode_from_clipboard s0 b vb).1.head? =
      some (MakerEv.encodeWrite PyVal.ctxManager (QRFile_TMP s0)) := by
  refine ⟨rfl, ?_, ?_⟩
  · cases va <;> simp [make_qrcode_from_clipboard]
  · cases vb <;> simp [make_qrcode_from_clipboard]

/-- C9 counterexample: the claim says a second commit or discard on an
already-finalized handle fails with DoubleFinalizeError. A first discard
succeeds and removes the staged file; the second finalize does fail, but with
the OS file-not-found error from remove/move — not DoubleFinalizeError, which
exists nowhere in the code. -/
theorem C9_counterexample :
    cleanup_file_data none true = Except.ok false ∧
    cleanup_file_data none false = Except.error PyErr.fileNotFound ∧
    (Except.error PyErr.fileNotFound : Except PyErr Bool) ≠
      Except.error PyErr.doubleFinalizeError := by
  refine ⟨rfl, rfl, by simp⟩

/-- C9 amended: after any successful finalize (commit or discard), a second
finalize of either kind never silently succeeds — it fails, but with the OS
file-not-found error raised by remove/move on the now-absent staged file,
since the code keeps no per-handle finalized flag and defines no
DoubleFinalizeError. -/
theorem C9_amended_second_finalize_fails (s1 s2 : Option String) (b : Bool)
    (h : cleanup_file_data s1 true = Except.ok b) :
    cleanup_file_data s2 b = Except.error PyErr.fileNotFound := by
  have hb : b = false := by
    cases b
    · rfl
    · cases s1 <;> simp [cleanup_file_data] at h
  subst hb
  cases s2 <;> simp [cleanup_file_data]

/-- C9 witness: discard once (succeeds, staged file gone), then a commit on
the same finalized handle fails with the file-not-found error. -/
theorem C9_witness :
    cleanup_file_data none true = Except.ok false ∧
    cleanup_file_data (some "out.png") false =
      Except.error PyErr.fileNotFound := by
  exact ⟨rfl, C9_amended_second_finalize_fails none (some "out.png") false rfl⟩

end PyQR
